import Mathlib

/-!
Verification of the KnowMeBench evaluation script (`evaluate/run_eval.py`).

The script is embedded shallowly:

* Python strings are `List Char` (`Str`), JSON-decoded Python values are `Json`.
* `parse_prompt_file` embeds `re.split(r'^# type\s+(.+)$', content, re.M)`
  as a scan over the whole content: a match starts at a line start with the
  literal marker `# type`; `\s+` greedily consumes whitespace, newlines
  included, so the captured group can come from a later line; `(.+)` then runs
  to the end of that line.  When everything after the marker's whitespace run
  up to the end of the input is whitespace, greedy backtracking captures the
  single last whitespace character that is not a newline and is not the first
  character of the run (there is no match if no such character exists).  The
  pieces between matches are the section bodies.  `isSpacePy` is the exact
  character set of Python's `\s` and `str.strip()` (`str.isspace`), Unicode
  whitespace included.
* The remote judge call together with `json.loads` of its reply is abstracted
  as an oracle `call : Str → Except Str Json`; `Except.error e` covers every
  exception raised by the API call or by `json.loads` (with `str(e) = e`), and
  `Except.ok j` is the successfully parsed reply.  A reply that is not a JSON
  object makes `result_json.get` raise `AttributeError`, which the same
  `try/except` turns into an error verdict; this is modelled explicitly.
* Python numbers are exact rationals (`Rat`); `round(x, 4)` and `"%.2f"`
  formatting are modelled as ideal decimal round-half-even on rationals (the
  source operates on binary floats, whose representation error is outside the
  embedding).
* `isinstance(x, (int, float))` is true for Python booleans, because `bool` is
  a subclass of `int`; `scoreIsNum` reflects this.
-/

abbrev Str := List Char

/-- A JSON-decoded Python value.  `null` is Python `None`. -/
inductive Json where
  | null
  | bool (b : Bool)
  | num (q : Rat)
  | str (s : Str)
  | arr (xs : List Json)
  | obj (kvs : List (Str × Json))

/-- One entry of the input JSON array.  `none` means the key is absent from the
dictionary.  `task_type` is the spec's task-type label: per the data model it
is a string when present; `dict.get('task_type')` collapses an absent key and
a `null` value to Python `None`, modelled as `none`.  (A present non-string
`task_type` behaves like an unmapped label when hashable; an unhashable value
would raise `TypeError` in `task_type not in prompts_map` and is outside the
data model.) -/
structure Item where
  id : Option Json := none
  task_type : Option Str := none
  question : Option Json := none
  reference_answer : Option Json := none
  model_answer : Option Json := none

/-- `item.get(k)` — absent key yields Python `None`. -/
def pyGet (o : Option Json) : Json := o.getD Json.null

/-- `item.get(k, '')` — absent key yields the empty string. -/
def pyGetStr (o : Option Json) : Json := o.getD (Json.str [])

/-- `item.get('task_type')` as the Python value stored in a verdict. -/
def pyGetTT : Option Str → Json
  | some s => Json.str s
  | none => Json.null

/-- Python dict lookup (keys are unique in a dict built by `dinsert`). -/
def dlookup {α : Type} : List (Str × α) → Str → Option α
  | [], _ => none
  | (k, v) :: r, k2 => if k = k2 then some v else dlookup r k2

/-- Python dict assignment `d[k] = v`: overwrite in place, else append. -/
def dinsert {α : Type} : List (Str × α) → Str → α → List (Str × α)
  | [], k, v => [(k, v)]
  | (k2, v2) :: r, k, v => if k2 = k then (k, v) :: r else (k2, v2) :: dinsert r k v

/-- The character set of Python's `\s` class and of `str.strip()`: both use
`str.isspace`, i.e. `\t \n \x0b \x0c \r \x1c`-`\x1f`, space, `\x85`, `\xa0`,
`\u1680`, `\u2000`-`\u200a`, `\u2028`, `\u2029`, `\u202f`, `\u205f`,
`\u3000`. -/
def isSpacePy (c : Char) : Bool :=
  c == ' ' || c == '\t' || c == '\n' || c == '\r' || c == '\x0b' || c == '\x0c' ||
    ('\x1c' ≤ c && c ≤ '\x1f') || c == '\x85' || c == '\xa0' || c == '\u1680' ||
    ('\u2000' ≤ c && c ≤ '\u200a') || c == '\u2028' || c == '\u2029' ||
    c == '\u202f' || c == '\u205f' || c == '\u3000'

/-- Python `str.strip()`. -/
def pyStrip (s : Str) : Str :=
  ((s.dropWhile isSpacePy).reverse.dropWhile isSpacePy).reverse

/-- Split at every character satisfying `p` (the behaviour of
`re.split('[、,]', s)` for a single-character class, and of splitting a text
into its lines at `'\n'`). -/
def splitOnPred (p : Char → Bool) (s : Str) : List Str :=
  s.foldr (fun c acc =>
    match acc with
    | [] => [[c]]
    | a :: as => if p c then [] :: a :: as else (c :: a) :: as) [[]]

/-- The comma class `[、,]` of the alias separator. -/
def isCommaCh (c : Char) : Bool := c == '、' || c == ','

def headerMarker : Str := "# type".toList

/-- One attempt of `^# type\s+(.+)$` at a line-start position.  On success,
returns the captured group and the remaining input after the match.  `\s+`
greedily consumes whitespace (newlines included); when a non-whitespace
character follows the run, `(.+)` captures from it to the end of that line.
When the whole rest of the input is whitespace, the greedy quantifiers
backtrack: the capture is the last whitespace character that is not a newline,
provided it is not the first character of the run (`\s+` needs one character
before it); otherwise there is no match. -/
def matchHeaderAt (s : Str) : Option (Str × Str) :=
  if headerMarker <+: s then
    let t := s.drop headerMarker.length
    let w := t.takeWhile isSpacePy
    let r := t.dropWhile isSpacePy
    if w.isEmpty then none
    else if r.isEmpty then
      match w.reverse.dropWhile (fun c => c == '\n') with
      | [] => none
      | [_] => none
      | c :: _ :: _ => some ([c], (w.reverse.takeWhile (fun c => c == '\n')).reverse)
    else
      some (r.takeWhile (fun c => c != '\n'), r.dropWhile (fun c => c != '\n'))
  else none

/-- Leftmost match of the header pattern in `s`: `^` only fires at a line
start (`atStart` says whether the current position is one; a position is a
line start exactly when the previous character is a newline).  Returns the
piece before the match, the capture, and the rest after the match. -/
def scanHeader (s : Str) (atStart : Bool) : Option (Str × Str × Str) :=
  match if atStart then matchHeaderAt s else none with
  | some (cap, rest) => some ([], cap, rest)
  | none =>
    match s with
    | [] => none
    | c :: cs =>
      match scanHeader cs (c == '\n') with
      | none => none
      | some (pre, cap, rest) => some (c :: pre, cap, rest)

/-- Iterated splitting, as `re.split` scans: each round takes the piece up to
the next match, its capture, and continues after the match.  Every match
consumes at least the six marker characters, so fuel `s.length + 1` is never
exhausted. -/
def splitGo : Nat → Str → Bool → Str × List (Str × Str)
  | 0, s, _ => (s, [])
  | fuel + 1, s, atStart =>
    match scanHeader s atStart with
    | none => (s, [])
    | some (pre, cap, rest) =>
      let r2 := splitGo fuel rest false
      (pre, (cap, r2.1) :: r2.2)

/-- The `(capture, following piece)` pairs of
`re.split(r'^# type\s+(.+)$', content, re.M)`; the piece before the first
match (`sections[0]`) is dropped, as the loop in the source starts at
index 1. -/
def toSections (content : Str) : List (Str × Str) :=
  (splitGo (content.length + 1) content true).2

/-- `[t.strip() for t in re.split(r'[、,]', task_types_raw)]` for one section. -/
def aliasesOf (sec : Str × Str) : List Str :=
  (splitOnPred isCommaCh (pyStrip sec.1)).map pyStrip

/-- The inner loop `for t in task_types: prompts[t] = prompt_content`. -/
def insertSection (m : List (Str × Str)) (sec : Str × Str) : List (Str × Str) :=
  (aliasesOf sec).foldl (fun m2 t => dinsert m2 t (pyStrip sec.2)) m

/-- `parse_prompt_file`, applied to the file content (the existence check and
the console print have no bearing on the returned mapping). -/
def parse_prompt_file (content : Str) : List (Str × Str) :=
  (toSections content).foldl insertSection []

/-- Python `str(x)` of a JSON-decoded value.  Containers are rendered by
`repr` in Python; no claim depends on that rendering and it is abbreviated
here.  Rationals print as `num` or `num/den`; the claims only evaluate the
string and absent cases. -/
def pyStr : Json → Str
  | Json.null => "None".toList
  | Json.bool true => "True".toList
  | Json.bool false => "False".toList
  | Json.num q =>
    if q.den = 1 then (toString q.num).toList
    else (toString q.num).toList ++ "/".toList ++ (toString q.den).toList
  | Json.str s => s
  | Json.arr _ => "[...]".toList
  | Json.obj _ => "\x7b...\x7d".toList

/-- `s.replace('', new)`: Python inserts `new` before every character and at
the end. -/
def replaceEmpty (new : Str) : Str → Str
  | [] => new
  | c :: cs => new ++ c :: replaceEmpty new cs

/-- Fueled left-to-right scan of Python `str.replace` for a nonempty pattern:
at each position, a match of `old` is replaced (non-overlapping) and the scan
resumes after it.  Fuel `s.length` always suffices since every step consumes
at least one character. -/
def replaceGo (old new : Str) : Nat → Str → Str
  | _, [] => []
  | 0, s => s
  | fuel + 1, c :: cs =>
    if old <+: (c :: cs) then new ++ replaceGo old new fuel ((c :: cs).drop old.length)
    else c :: replaceGo old new fuel cs

/-- Python `s.replace(old, new)` (replace all non-overlapping occurrences,
left to right). -/
def pyReplace (s old new : Str) : Str :=
  match old with
  | [] => replaceEmpty new s
  | _ :: _ => replaceGo old new s.length s

def qTok : Str := "\x7b\x7bquestion\x7d\x7d".toList
def rTok : Str := "\x7b\x7breference_answer\x7d\x7d".toList
def mTok : Str := "\x7b\x7bmodel_answer\x7d\x7d".toList

/-- Lines 72–80 of the source: fill the template placeholders with the items'
fields coerced by `str`, a missing key defaulting to `''`. -/
def renderPrompt (item : Item) (template : Str) : Str :=
  pyReplace
    (pyReplace
      (pyReplace template qTok (pyStr (pyGetStr item.question)))
      rTok (pyStr (pyGetStr item.reference_answer)))
    mTok (pyStr (pyGetStr item.model_answer))

def statusSuccess : Str := "success".toList
def statusError : Str := "error".toList
def statusSkipped : Str := "skipped".toList
def errPre : Str := "Evaluation Error: ".toList
def skipMsg : Str := "Task type not found in prompt file".toList
def scoreKey : Str := "score".toList
def reasoningKey : Str := "reasoning".toList

/-- One result dictionary.  `none` in an `Option` field means the key is
absent from the dictionary (skipped verdicts only carry `id`, `error` and
`status`); a present key with Python `None` is `some Json.null`. -/
structure Verdict where
  id : Json
  task_type : Option Json := none
  score : Option Json := none
  reasoning : Option Json := none
  error : Option Str := none
  status : Str

/-- `result_json.get(k)` on the parsed judge reply. -/
def jsonGet (kvs : List (Str × Json)) (k : Str) : Json :=
  (dlookup kvs k).getD Json.null

/-- The Python type name of a JSON-decoded value, as it appears in the
`AttributeError` message for a non-dict judge reply. -/
def pyTypeName : Json → Str
  | Json.null => "NoneType".toList
  | Json.bool _ => "bool".toList
  | Json.num q => if q.den = 1 then "int".toList else "float".toList
  | Json.str _ => "str".toList
  | Json.arr _ => "list".toList
  | Json.obj _ => "dict".toList

/-- `str(e)` of the `AttributeError` raised by `result_json.get` when
`json.loads` produced a non-dict (quotes of the original message elided). -/
def attrMsg (j : Json) : Str :=
  pyTypeName j ++ " object has no attribute get".toList

/-- The `except` branch of `evaluate_single_item`. -/
def errorVerdict (item : Item) (e : Str) : Verdict :=
  { id := pyGet item.id
    task_type := some (pyGetTT item.task_type)
    score := some (Json.num 0)
    reasoning := some (Json.str (errPre ++ e))
    status := statusError }

/-- The success dictionary returned from the `try` branch. -/
def successVerdict (item : Item) (kvs : List (Str × Json)) : Verdict :=
  { id := pyGet item.id
    task_type := some (pyGetTT item.task_type)
    score := some (jsonGet kvs scoreKey)
    reasoning := some (jsonGet kvs reasoningKey)
    status := statusSuccess }

/-- `evaluate_single_item`: render the prompt, consult the judge oracle, and
produce a verdict; every failure of the call or of response parsing is caught
and becomes an error verdict. -/
def evaluate_single_item (item : Item) (template : Str)
    (call : Str → Except Str Json) : Verdict :=
  let final_prompt := renderPrompt item template
  match call final_prompt with
  | Except.ok (Json.obj kvs) => successVerdict item kvs
  | Except.ok j => errorVerdict item (attrMsg j)
  | Except.error e => errorVerdict item e

/-- The skipped dictionary appended when the task type has no template: note
it has no `task_type`, `score` or `reasoning` key. -/
def skippedVerdict (item : Item) : Verdict :=
  { id := pyGet item.id
    error := some skipMsg
    status := statusSkipped }

/-- `task_type not in prompts_map`: keys are strings, so Python `None`
(absent or null `task_type`) matches no key. -/
def lookupTemplate (m : List (Str × Str)) (tt : Option Str) : Option Str :=
  match tt with
  | some s => dlookup m s
  | none => none

/-- The main evaluation loop over the remaining items; `i` is the position of
the next item in the input.  The second component records the positions of the
items for which a remote judge call was issued. -/
def mainLoop (prompts : List (Str × Str)) (judge : Nat → Str → Except Str Json) :
    Nat → List Item → List Verdict × List Nat
  | _, [] => ([], [])
  | i, item :: rest =>
    let r := mainLoop prompts judge (i + 1) rest
    match lookupTemplate prompts item.task_type with
    | none => (skippedVerdict item :: r.1, r.2)
    | some tmpl => (evaluate_single_item item tmpl (judge i) :: r.1, i :: r.2)

/-- The whole per-item phase of `main`: the produced `results` list and the
item positions that reached the judge. -/
def runMain (prompts : List (Str × Str)) (data : List Item)
    (judge : Nat → Str → Except Str Json) : List Verdict × List Nat :=
  mainLoop prompts judge 0 data

/-- Whether a score value passes `isinstance(x, (int, float))`.  Python `bool`
is a subclass of `int`, so booleans pass. -/
def scoreIsNum : Json → Bool
  | Json.num _ => true
  | Json.bool _ => true
  | _ => false

/-- The numeric value Python arithmetic assigns to a value passing
`scoreIsNum` (`True` is `1`, `False` is `0`). -/
def scoreVal : Json → Rat
  | Json.num q => q
  | Json.bool b => if b then 1 else 0
  | _ => 0

/-- Line 158: `[r['score'] for r in results if r.get('status') == 'success'
and isinstance(r.get('score'), (int, float))]`. -/
def valid_scores (results : List Verdict) : List Rat :=
  results.filterMap fun r =>
    if r.status = statusSuccess ∧ scoreIsNum (pyGet r.score) = true then
      some (scoreVal (pyGet r.score))
    else none

/-- Line 159: `sum(valid_scores) / len(valid_scores) if valid_scores else 0`. -/
def avg_score (results : List Verdict) : Rat :=
  if valid_scores results = [] then 0
  else (valid_scores results).sum / ((valid_scores results).length : Rat)

/-- Ideal decimal round-half-even to an integer, the rounding rule of Python's
`round` (on exact rationals; float representation error is not modelled). -/
def pyRoundHalfEven (x : Rat) : Int :=
  let f : Int := ⌊x⌋
  let r : Rat := x - (f : Rat)
  if r < 1 / 2 then f
  else if 1 / 2 < r then f + 1
  else if f % 2 = 0 then f else f + 1

/-- `round(x, 4)`. -/
def round4 (x : Rat) : Rat := ((pyRoundHalfEven (x * 10000) : Int) : Rat) / 10000

structure Meta where
  judge_model : Str
  total_items : Nat
  evaluated_items : Nat
  average_score : Rat

structure Report where
  meta : Meta
  details : List Verdict

/-- Lines 162–170: the `output_data` object that is serialised to the output
file. -/
def buildReport (model : Str) (data : List Item) (results : List Verdict) : Report :=
  { meta :=
      { judge_model := model
        total_items := data.length
        evaluated_items := (valid_scores results).length
        average_score := round4 (avg_score results) }
    details := results }

/-- The report persisted by a full run of `main`. -/
def runReport (prompts : List (Str × Str)) (data : List Item)
    (judge : Nat → Str → Except Str Json) (model : Str) : Report :=
  buildReport model data (runMain prompts data judge).1

/-- `"%.2f"`-style fixed-point rendering used by the console summary line
(ideal decimal rounding of the exact value). -/
def formatFixed2 (x : Rat) : Str :=
  let n := pyRoundHalfEven (x * 100)
  let a := n.natAbs
  (if n < 0 then "-".toList else []) ++ (toString ((a : Int) / 100)).toList ++
    ".".toList ++ (if a % 100 < 10 then "0".toList else []) ++
    (toString ((a : Int) % 100)).toList

/-- Line 176: `print(f"... Average Score: {avg_score:.2f} / 5.0")` — the
console summary formats the exact, unrounded mean. -/
def summaryLine (results : List Verdict) : Str :=
  "Average Score: ".toList ++ formatFixed2 (avg_score results) ++ " / 5.0".toList

/-- The verdict `main` records for the item at position `i`. -/
def verdictFor (prompts : List (Str × Str)) (judge : Nat → Str → Except Str Json)
    (i : Nat) (item : Item) : Verdict :=
  match lookupTemplate prompts item.task_type with
  | none => skippedVerdict item
  | some tmpl => evaluate_single_item item tmpl (judge i)

/-- Spec-side description for C1: the verdicts whose status is success and
whose score passes the numeric test. -/
def successNumericVerdicts (results : List Verdict) : List Verdict :=
  results.filter fun r => decide (r.status = statusSuccess) && scoreIsNum (pyGet r.score)


/-! ### C8 / C10 scenario runs -/

def c8Prompts : List (Str × Str) := [("A".toList, "T".toList)]

def c8Data : List Item :=
  [{ task_type := some "A".toList, id := some (Json.num 1) },
   { task_type := some "Z".toList, id := some (Json.num 2) }]

def c8Judge : Nat → Str → Except Str Json :=
  fun _ _ => Except.ok (Json.obj [(scoreKey, Json.num 4), (reasoningKey, Json.str "ok".toList)])

def c10Prompts : List (Str × Str) := [("A".toList, "T".toList)]

def c10Data : List Item :=
  [{ task_type := some "A".toList }, { task_type := some "A".toList },
   { task_type := some "A".toList }]

def c10Judge : Nat → Str → Except Str Json :=
  fun i _ => Except.ok (Json.obj [(scoreKey, Json.num (if i = 0 then 1 else 0))])

/-! ### String-matching notions used for the placeholder analysis -/

/-- `mismatch old s`: some position `k`, valid in both lists, where `s` and
`old` hold different characters; such a position rules out `old` being a
prefix of any extension of `s`. -/
def mismatch (old s : Str) : Bool :=
  (List.range s.length).any fun k => decide (k < old.length) && decide (s[k]? ≠ old[k]?)

/-- Every nonempty suffix of `a` differs from `old` at some shared position:
no occurrence of `old` can start anywhere in `a`, even one running past its
end. -/
def cleanChunk (old a : Str) : Prop :=
  ∀ s ∈ a.tails, s ≠ [] → mismatch old s = true

/-- Every nonempty suffix of `a` either starts a full occurrence of `old`
inside `a` or differs from `old` at a shared position: no occurrence of `old`
straddles the right edge of `a`. -/
def safeChunk (old a : Str) : Prop :=
  ∀ s ∈ a.tails, s ≠ [] → old <+: s ∨ mismatch old s = true

/-- Executable form of `cleanChunk`, used to check the concrete placeholder
tokens against each other. -/
def cleanChunkB (old a : Str) : Bool :=
  a.tails.all fun s => s.isEmpty || mismatch old s

/-- No `'{'` occurs in `s` (each placeholder token starts with two). -/
def braceFree (s : Str) : Bool := s.all fun c => decide (c ≠ '\x7b')

/-- `sub` occurs contiguously in `s` (Python's `sub in s`). -/
def containsStr (s sub : Str) : Prop := ∃ x y, s = x ++ (sub ++ y)

/-! ### Dictionary lemmas for the template map -/

theorem dlookup_dinsert {α : Type} (m : List (Str × α)) (k k2 : Str) (v : α) :
    dlookup (dinsert m k v) k2 = if k = k2 then some v else dlookup m k2 := by
  induction m with
  | nil => simp [dinsert, dlookup]
  | cons p r ih =>
    obtain ⟨k3, v3⟩ := p
    by_cases h3 : k3 = k
    · subst h3
      by_cases h2 : k3 = k2 <;> simp [dinsert, dlookup, h2]
    · by_cases h2 : k3 = k2
      · subst h2
        have : ¬ k = k3 := fun h => h3 h.symm
        simp [dinsert, dlookup, h3, this]
      · simp [dinsert, dlookup, h3, h2, ih]

theorem dlookup_insertList {α : Type} (v : α) (ts : List Str) (m : List (Str × α)) (t : Str) :
    dlookup (ts.foldl (fun m2 t2 => dinsert m2 t2 v) m) t =
      if t ∈ ts then some v else dlookup m t := by
  induction ts generalizing m with
  | nil => simp
  | cons a as ih =>
    by_cases hmem : t ∈ as
    · simp [List.foldl_cons, ih, hmem]
    · by_cases ha : a = t
      · subst ha
        simp [List.foldl_cons, ih, hmem, dlookup_dinsert]
      · have : t ∉ a :: as := by
          intro h
          rcases List.mem_cons.mp h with h | h
          · exact ha h.symm
          · exact hmem h
        simp [List.foldl_cons, ih, hmem, dlookup_dinsert, ha, this]

theorem dlookup_insertSection (m : List (Str × Str)) (sec : Str × Str) (t : Str) :
    dlookup (insertSection m sec) t =
      if t ∈ aliasesOf sec then some (pyStrip sec.2) else dlookup m t := by
  simp [insertSection, dlookup_insertList]

theorem dlookup_foldl_insertSection_of_not (ss : List (Str × Str)) (m : List (Str × Str))
    (t : Str) (h : ∀ sec ∈ ss, t ∉ aliasesOf sec) :
    dlookup (ss.foldl insertSection m) t = dlookup m t := by
  induction ss generalizing m with
  | nil => simp
  | cons s rest ih =>
    have hs : t ∉ aliasesOf s := h s (List.mem_cons_self s rest)
    have hrest : ∀ sec ∈ rest, t ∉ aliasesOf sec := fun sec hm => h sec (List.mem_cons_of_mem s hm)
    simp [List.foldl_cons, ih _ hrest, dlookup_insertSection, hs]

theorem dlookup_foldl_insertSection (ss : List (Str × Str)) (m : List (Str × Str))
    (t : Str) (B : Str)
    (hex : ∃ sec ∈ ss, t ∈ aliasesOf sec)
    (hall : ∀ sec ∈ ss, t ∈ aliasesOf sec → pyStrip sec.2 = B) :
    dlookup (ss.foldl insertSection m) t = some B := by
  induction ss generalizing m with
  | nil => simp at hex
  | cons s rest ih =>
    by_cases hrest : ∃ sec ∈ rest, t ∈ aliasesOf sec
    · exact ih _ hrest (fun sec hm ht => hall sec (List.mem_cons_of_mem s hm) ht)
    · obtain ⟨sec, hsec, ht⟩ := hex
      have hsec_s : sec = s := by
        rcases List.mem_cons.mp hsec with h | h
        · exact h
        · exact absurd ⟨sec, h, ht⟩ hrest
      subst hsec_s
      have hnot : ∀ sec2 ∈ rest, t ∉ aliasesOf sec2 := by
        intro sec2 hm ht2
        exact hrest ⟨sec2, hm, ht2⟩
      rw [List.foldl_cons, dlookup_foldl_insertSection_of_not rest _ t hnot,
        dlookup_insertSection, if_pos ht, hall sec (List.mem_cons_self sec rest) ht]

/-- C6: For every valid prompt file, `parse_prompt_file` returns a mapping in
which every task-type name appearing in any header line has an entry, and
names separated within one header by a comma (either locale variant) all map
to the identical template body string.  Validity here is the hypothesis that
every header listing the name has the same stripped body (in particular any
file in which no task-type name occurs in two different headers): with it,
every alias `t` of a section maps to exactly that section's stripped body, so
all aliases of one header share the identical template. -/
theorem c6_prompt_aliases_share_template (content : Str) (sec : Str × Str) (t : Str)
    (hsec : sec ∈ toSections content)
    (ht : t ∈ aliasesOf sec)
    (hvalid : ∀ sec2 ∈ toSections content,
      t ∈ aliasesOf sec2 → pyStrip sec2.2 = pyStrip sec.2) :
    dlookup (parse_prompt_file content) t = some (pyStrip sec.2) :=
  dlookup_foldl_insertSection _ _ _ _ ⟨sec, hsec, ht⟩ hvalid

/-- Witness for C6 at a concrete two-header file whose first header declares
the aliases `A` and `B` (separated by the ideographic comma): both aliases
resolve to the first template body. -/
theorem c6_prompt_aliases_share_template_witness :
    dlookup (parse_prompt_file ("# type A、B\nTemplate one\n# type C\nTemplate two").toList)
        "B".toList = some (pyStrip ("A、B".toList, "\nTemplate one\n".toList).2) :=
  c6_prompt_aliases_share_template ("# type A、B\nTemplate one\n# type C\nTemplate two").toList
    ("A、B".toList, "\nTemplate one\n".toList) "B".toList (by decide) (by decide) (by decide)

/-! ### Driver-loop lemmas -/

theorem mainLoop_length (prompts : List (Str × Str)) (judge : Nat → Str → Except Str Json) :
    ∀ (data : List Item) (i0 : Nat), (mainLoop prompts judge i0 data).1.length = data.length := by
  intro data
  induction data with
  | nil => intro i0; rfl
  | cons item rest ih =>
    intro i0
    cases h : lookupTemplate prompts item.task_type <;>
      simp [mainLoop, h, ih (i0 + 1)]

theorem mainLoop_getElem? (prompts : List (Str × Str)) (judge : Nat → Str → Except Str Json) :
    ∀ (data : List Item) (i0 k : Nat),
      (mainLoop prompts judge i0 data).1[k]? = (data[k]?).map (verdictFor prompts judge (i0 + k)) := by
  intro data
  induction data with
  | nil => intro i0 k; rfl
  | cons item rest ih =>
    intro i0 k
    cases k with
    | zero =>
      cases h : lookupTemplate prompts item.task_type <;>
        simp [mainLoop, h, verdictFor]
    | succ k2 =>
      have hrec := ih (i0 + 1) k2
      have harith : i0 + 1 + k2 = i0 + (k2 + 1) := by omega
      cases h : lookupTemplate prompts item.task_type <;>
        simpa [mainLoop, h, harith] using hrec

theorem mainLoop_calls_ge (prompts : List (Str × Str)) (judge : Nat → Str → Except Str Json) :
    ∀ (data : List Item) (i0 n : Nat), n ∈ (mainLoop prompts judge i0 data).2 → i0 ≤ n := by
  intro data
  induction data with
  | nil => intro i0 n h; simp [mainLoop] at h
  | cons item rest ih =>
    intro i0 n h
    cases hl : lookupTemplate prompts item.task_type with
    | none =>
      rw [mainLoop] at h
      simp only [hl] at h
      exact Nat.le_of_succ_le (ih (i0 + 1) n h)
    | some tmpl =>
      rw [mainLoop] at h
      simp only [hl] at h
      rcases List.mem_cons.mp h with h | h
      · omega
      · exact Nat.le_of_succ_le (ih (i0 + 1) n h)

theorem mainLoop_not_called (prompts : List (Str × Str)) (judge : Nat → Str → Except Str Json) :
    ∀ (data : List Item) (i0 k : Nat) (it : Item), data[k]? = some it →
      lookupTemplate prompts it.task_type = none →
      (i0 + k) ∉ (mainLoop prompts judge i0 data).2 := by
  intro data
  induction data with
  | nil => intro i0 k it hk; simp at hk
  | cons item rest ih =>
    intro i0 k it hk hnone
    cases k with
    | zero =>
      simp only [List.getElem?_cons_zero, Option.some.injEq] at hk
      subst hk
      rw [mainLoop]
      simp only [hnone]
      intro hmem
      have := mainLoop_calls_ge prompts judge rest (i0 + 1) i0 (by simpa using hmem)
      omega
    | succ k2 =>
      have hk2 : rest[k2]? = some it := by simpa using hk
      have hnotin := ih (i0 + 1) k2 it hk2 hnone
      have harith : i0 + 1 + k2 = i0 + (k2 + 1) := by omega
      rw [harith] at hnotin
      cases hl : lookupTemplate prompts item.task_type with
      | none =>
        rw [mainLoop]
        simp only [hl]
        exact hnotin
      | some tmpl =>
        rw [mainLoop]
        simp only [hl]
        intro hmem
        rcases List.mem_cons.mp hmem with h | h
        · omega
        · exact hnotin h

theorem evaluate_status (item : Item) (template : Str) (call : Str → Except Str Json) :
    (evaluate_single_item item template call).status = statusSuccess ∨
      (evaluate_single_item item template call).status = statusError := by
  rw [evaluate_single_item]
  cases call (renderPrompt item template) with
  | error e => right; rfl
  | ok j => cases j <;> simp [successVerdict, errorVerdict]

theorem evaluate_id (item : Item) (template : Str) (call : Str → Except Str Json) :
    (evaluate_single_item item template call).id = pyGet item.id := by
  rw [evaluate_single_item]
  cases call (renderPrompt item template) with
  | error e => rfl
  | ok j => cases j <;> rfl

theorem evaluate_task_type (item : Item) (template : Str) (call : Str → Except Str Json) :
    (evaluate_single_item item template call).task_type = some (pyGetTT item.task_type) := by
  rw [evaluate_single_item]
  cases call (renderPrompt item template) with
  | error e => rfl
  | ok j => cases j <;> rfl

theorem verdictFor_status (prompts : List (Str × Str)) (judge : Nat → Str → Except Str Json)
    (i : Nat) (item : Item) :
    (verdictFor prompts judge i item).status = statusSuccess ∨
      (verdictFor prompts judge i item).status = statusError ∨
      (verdictFor prompts judge i item).status = statusSkipped := by
  rw [verdictFor]
  cases h : lookupTemplate prompts item.task_type with
  | none => right; right; rfl
  | some tmpl =>
    rcases evaluate_status item tmpl (judge i) with h2 | h2
    · left; exact h2
    · right; left; exact h2

theorem verdictFor_id (prompts : List (Str × Str)) (judge : Nat → Str → Except Str Json)
    (i : Nat) (item : Item) :
    (verdictFor prompts judge i item).id = pyGet item.id := by
  rw [verdictFor]
  cases h : lookupTemplate prompts item.task_type with
  | none => rfl
  | some tmpl => exact evaluate_id item tmpl (judge i)

/-- C2: For every input list of items, the `details` array of the produced
report contains exactly one verdict per input item, in input order (the
verdict at position `k` is produced from the item at position `k`), each with
terminal status success, error or skipped; hence the length of `details`
equals the input item count. -/
theorem c2_details_one_verdict_per_item (prompts : List (Str × Str)) (data : List Item)
    (judge : Nat → Str → Except Str Json) (model : Str) :
    (runMain prompts data judge).1.length = data.length ∧
    (runReport prompts data judge model).details.length = data.length ∧
    ∀ (k : Nat) (it : Item), data[k]? = some it → ∃ v : Verdict, (runMain prompts data judge).1[k]? = some v ∧
      (v.status = statusSuccess ∨ v.status = statusError ∨ v.status = statusSkipped) ∧
      v.id = pyGet it.id := by
  refine ⟨mainLoop_length prompts judge data 0, mainLoop_length prompts judge data 0, ?_⟩
  intro k it hk
  refine ⟨verdictFor prompts judge (0 + k) it, ?_, ?_, verdictFor_id prompts judge (0 + k) it⟩
  · rw [runMain, mainLoop_getElem?, hk]; rfl
  · exact verdictFor_status prompts judge (0 + k) it

/-- Witness for C2: a concrete two-item run (one mapped task type, one
unmapped), instantiated at the second item. -/
theorem c2_details_one_verdict_per_item_witness :
    ∃ v : Verdict, (runMain [("A".toList, "T".toList)]
        [{ task_type := some "A".toList, id := some (Json.num 1) },
         { task_type := some "Z".toList, id := some (Json.num 2) }]
        (fun _ _ => Except.error "net down".toList)).1[1]? = some v ∧
      (v.status = statusSuccess ∨ v.status = statusError ∨ v.status = statusSkipped) ∧
      v.id = pyGet (some (Json.num 2)) :=
  (c2_details_one_verdict_per_item [("A".toList, "T".toList)]
    [{ task_type := some "A".toList, id := some (Json.num 1) },
     { task_type := some "Z".toList, id := some (Json.num 2) }]
    (fun _ _ => Except.error "net down".toList) "gpt-4o".toList).2.2 1
    { task_type := some "Z".toList, id := some (Json.num 2) } rfl

/-- C4: For every item whose `task_type` has no entry in the template mapping
(exact, case-sensitive string lookup, with a missing or null `task_type`
matching no key), the driver records the skipped verdict — whose `status` is
`skipped` and whose `error` field holds the non-empty explanatory message —
and the item's position is absent from the list of positions for which a
remote judge call was issued. -/
theorem c4_unmapped_task_type_skipped_no_call (prompts : List (Str × Str)) (data : List Item)
    (judge : Nat → Str → Except Str Json) :
    ∀ (k : Nat) (it : Item), data[k]? = some it → lookupTemplate prompts it.task_type = none →
      (runMain prompts data judge).1[k]? = some (skippedVerdict it) ∧
      (skippedVerdict it).status = statusSkipped ∧
      (skippedVerdict it).error = some skipMsg ∧ skipMsg ≠ [] ∧
      k ∉ (runMain prompts data judge).2 := by
  intro k it hk hnone
  refine ⟨?_, rfl, rfl, by decide, ?_⟩
  · rw [runMain, mainLoop_getElem?, hk]
    simp only [Option.map_some']
    rw [verdictFor, hnone]
  · have := mainLoop_not_called prompts judge data 0 k it hk hnone
    simpa using this

/-- Witness for C4: a run whose single prompt template does not cover the
task type `Z` of the second item; it is skipped and position 1 is never
called. -/
theorem c4_unmapped_task_type_skipped_no_call_witness :
    (runMain [("A".toList, "T".toList)]
        [{ task_type := some "A".toList }, { task_type := some "Z".toList }]
        (fun _ _ => Except.ok Json.null)).1[1]? =
      some (skippedVerdict { task_type := some "Z".toList }) ∧
      (skippedVerdict { task_type := some "Z".toList }).status = statusSkipped ∧
      (skippedVerdict { task_type := some "Z".toList }).error = some skipMsg ∧
      skipMsg ≠ [] ∧
      1 ∉ (runMain [("A".toList, "T".toList)]
        [{ task_type := some "A".toList }, { task_type := some "Z".toList }]
        (fun _ _ => Except.ok Json.null)).2 :=
  c4_unmapped_task_type_skipped_no_call [("A".toList, "T".toList)]
    [{ task_type := some "A".toList }, { task_type := some "Z".toList }]
    (fun _ _ => Except.ok Json.null) 1 { task_type := some "Z".toList } rfl rfl

/-- Counterexample to C5 as stated: in a run whose template map is empty, the
(skipped) verdict for an item with `task_type = "Z"` has no `task_type` key at
all (`none`), whereas the originating item's `task_type` value is the string
`"Z"`; so the verdict does not carry the same `task_type` as the item. -/
theorem c5_counterexample_skipped_verdict_drops_task_type :
    ((runMain [] [{ id := some (Json.num 7), task_type := some "Z".toList }]
        (fun _ _ => Except.error [])).1.map Verdict.task_type) = [none] ∧
      pyGetTT (some "Z".toList) = Json.str "Z".toList ∧
      (none : Option Json) ≠ some (pyGetTT (some "Z".toList)) :=
  ⟨rfl, rfl, fun h => Option.noConfusion h⟩

/-- C5 amended: every verdict carries the same `id` as its originating item;
success and error verdicts also carry the item's `task_type`; skipped verdicts
(unmapped task type) carry the `id` but have no `task_type`, `score` or
`reasoning` field. -/
theorem c5_verdict_id_and_task_type (prompts : List (Str × Str)) (data : List Item)
    (judge : Nat → Str → Except Str Json) :
    ∀ (k : Nat) (it : Item), data[k]? = some it → ∃ v : Verdict, (runMain prompts data judge).1[k]? = some v ∧
      v.id = pyGet it.id ∧
      (∀ tmpl, lookupTemplate prompts it.task_type = some tmpl →
        v.task_type = some (pyGetTT it.task_type)) ∧
      (lookupTemplate prompts it.task_type = none →
        v.task_type = none ∧ v.score = none ∧ v.reasoning = none) := by
  intro k it hk
  refine ⟨verdictFor prompts judge (0 + k) it, ?_, verdictFor_id prompts judge (0 + k) it, ?_, ?_⟩
  · rw [runMain, mainLoop_getElem?, hk]; rfl
  · intro tmpl htmpl
    rw [verdictFor, htmpl]
    exact evaluate_task_type it tmpl (judge (0 + k))
  · intro hnone
    rw [verdictFor, hnone]
    exact ⟨rfl, rfl, rfl⟩

/-- Witness for C5 (amended): concrete one-item run with a mapped task type;
the verdict carries the item's id and task type. -/
theorem c5_verdict_id_and_task_type_witness :
    ∃ v : Verdict, (runMain [("A".toList, "T".toList)]
        [{ task_type := some "A".toList, id := some (Json.num 3) }]
        (fun _ _ => Except.error "boom".toList)).1[0]? = some v ∧
      v.id = pyGet (some (Json.num 3)) ∧
      (∀ tmpl, lookupTemplate [("A".toList, "T".toList)] (some "A".toList) = some tmpl →
        v.task_type = some (pyGetTT (some "A".toList))) ∧
      (lookupTemplate [("A".toList, "T".toList)] (some "A".toList) = none →
        v.task_type = none ∧ v.score = none ∧ v.reasoning = none) :=
  c5_verdict_id_and_task_type [("A".toList, "T".toList)]
    [{ task_type := some "A".toList, id := some (Json.num 3) }]
    (fun _ _ => Except.error "boom".toList) 0
    { task_type := some "A".toList, id := some (Json.num 3) } rfl

/-! ### Statistics lemmas -/

theorem valid_scores_eq_map_filter (results : List Verdict) :
    valid_scores results =
      (successNumericVerdicts results).map (fun r => scoreVal (pyGet r.score)) := by
  induction results with
  | nil => rfl
  | cons r rest ih =>
    by_cases hs : r.status = statusSuccess
    · by_cases hn : scoreIsNum (pyGet r.score) = true
      · simp [valid_scores, successNumericVerdicts, hs, hn] at ih ⊢
        exact ih
      · simp [valid_scores, successNumericVerdicts, hs, hn] at ih ⊢
        exact ih
    · simp [valid_scores, successNumericVerdicts, hs] at ih ⊢
      exact ih

/-- C1: the computed `avg_score` is the arithmetic mean of the score values of
exactly the verdicts whose status is success and whose score passes the
numeric test (Python's `isinstance(x, (int, float))`, under which booleans
count as numbers since `bool` subclasses `int`): those verdicts form both the
numerator and the denominator, and verdicts with error or skipped status, or a
success verdict whose score fails the numeric test (including a missing score,
read back as `None`), contribute to neither. -/
theorem c1_average_is_mean_over_success_numeric (results : List Verdict) :
    (successNumericVerdicts results = [] → avg_score results = 0) ∧
    (successNumericVerdicts results ≠ [] →
      avg_score results =
        ((successNumericVerdicts results).map (fun r => scoreVal (pyGet r.score))).sum /
          ((successNumericVerdicts results).length : Rat)) ∧
    (∀ r ∈ results, (r.status = statusError ∨ r.status = statusSkipped) →
      r ∉ successNumericVerdicts results) ∧
    (∀ r ∈ results, r.status = statusSuccess → scoreIsNum (pyGet r.score) = false →
      r ∉ successNumericVerdicts results) := by
  refine ⟨?_, ?_, ?_, ?_⟩
  · intro h
    rw [avg_score, if_pos]
    rw [valid_scores_eq_map_filter, h]
    rfl
  · intro h
    rw [avg_score, if_neg, valid_scores_eq_map_filter, List.length_map]
    rw [valid_scores_eq_map_filter]
    simpa [List.map_eq_nil_iff] using h
  · intro r _ hre hmem
    have := List.of_mem_filter hmem
    simp only [Bool.and_eq_true, decide_eq_true_eq] at this
    rcases hre with h | h <;> rw [h] at this
    · exact absurd this.1 (by decide)
    · exact absurd this.1 (by decide)
  · intro r _ _ hn hmem
    have := List.of_mem_filter hmem
    simp only [Bool.and_eq_true, decide_eq_true_eq] at this
    rw [hn] at this
    exact Bool.false_ne_true this.2

/-- Witness for C1 at a concrete results list (one success verdict with score
4, one error verdict, one skipped verdict): the mean is taken over the single
qualifying verdict. -/
theorem c1_average_is_mean_over_success_numeric_witness :
    avg_score
        [{ id := Json.null, score := some (Json.num 4), status := statusSuccess },
         { id := Json.null, score := some (Json.num 0), status := statusError },
         { id := Json.null, error := some skipMsg, status := statusSkipped }] =
      ((successNumericVerdicts
          [{ id := Json.null, score := some (Json.num 4), status := statusSuccess },
           { id := Json.null, score := some (Json.num 0), status := statusError },
           { id := Json.null, error := some skipMsg, status := statusSkipped }]).map
          (fun r => scoreVal (pyGet r.score))).sum /
        ((successNumericVerdicts
          [{ id := Json.null, score := some (Json.num 4), status := statusSuccess },
           { id := Json.null, score := some (Json.num 0), status := statusError },
           { id := Json.null, error := some skipMsg, status := statusSkipped }]).length : Rat) :=
  (c1_average_is_mean_over_success_numeric
    [{ id := Json.null, score := some (Json.num 4), status := statusSuccess },
     { id := Json.null, score := some (Json.num 0), status := statusError },
     { id := Json.null, error := some skipMsg, status := statusSkipped }]).2.1
    (fun h =>
      List.noConfusion
        ((show successNumericVerdicts
            [{ id := Json.null, score := some (Json.num 4), status := statusSuccess },
             { id := Json.null, score := some (Json.num 0), status := statusError },
             { id := Json.null, error := some skipMsg, status := statusSkipped }] =
            [{ id := Json.null, score := some (Json.num 4), status := statusSuccess }] from
          rfl).symm.trans h))

/-- C9: when no verdict has success status with a numeric score (empty input,
all items skipped or in error, or all scores non-numeric), the computed
average is `0` — not an absent value and not a division-by-zero failure — and
the persisted `average_score` is `0` as well. -/
theorem c9_no_valid_scores_average_zero (prompts : List (Str × Str)) (data : List Item)
    (judge : Nat → Str → Except Str Json) (model : Str)
    (h : valid_scores (runMain prompts data judge).1 = []) :
    avg_score (runMain prompts data judge).1 = 0 ∧
    (runReport prompts data judge model).meta.average_score = 0 := by
  have ha : avg_score (runMain prompts data judge).1 = 0 := by
    rw [avg_score, if_pos h]
  refine ⟨ha, ?_⟩
  show round4 (avg_score (runMain prompts data judge).1) = 0
  rw [ha, round4, pyRoundHalfEven]
  norm_num

/-- Witness for C9: the empty input list yields no valid scores and a zero
average. -/
theorem c9_no_valid_scores_average_zero_witness :
    avg_score (runMain [] [] (fun _ _ => Except.ok Json.null)).1 = 0 ∧
    (runReport [] [] (fun _ _ => Except.ok Json.null) "gpt-4o".toList).meta.average_score = 0 :=
  c9_no_valid_scores_average_zero [] [] (fun _ _ => Except.ok Json.null) "gpt-4o".toList rfl


/-- C8: the persisted report has the shape
`{meta: {judge_model, total_items, evaluated_items, average_score}, details}`
with `total_items` the number of input items, `evaluated_items` the number of
verdicts with success status and numeric score, and `details` the verdict
list; and in the two-item scenario (one success with score 4, one unmapped
task type) `evaluated_items = 1`, `average_score = 4.0` and the second detail
is skipped. -/
theorem c8_report_shape_and_scenario (prompts : List (Str × Str)) (data : List Item)
    (judge : Nat → Str → Except Str Json) (model : Str) :
    runReport prompts data judge model =
      { meta :=
          { judge_model := model
            total_items := data.length
            evaluated_items := (valid_scores (runMain prompts data judge).1).length
            average_score := round4 (avg_score (runMain prompts data judge).1) }
        details := (runMain prompts data judge).1 } ∧
    (valid_scores (runMain prompts data judge).1).length =
      (successNumericVerdicts (runMain prompts data judge).1).length ∧
    (runReport c8Prompts c8Data c8Judge "gpt-4o".toList).meta.total_items = 2 ∧
    (runReport c8Prompts c8Data c8Judge "gpt-4o".toList).meta.evaluated_items = 1 ∧
    (runReport c8Prompts c8Data c8Judge "gpt-4o".toList).meta.average_score = 4 ∧
    ((runMain c8Prompts c8Data c8Judge).1.map Verdict.status) = [statusSuccess, statusSkipped] := by
  refine ⟨rfl, ?_, rfl, by decide, ?_, by decide⟩
  · rw [valid_scores_eq_map_filter, List.length_map]
  · show round4 (avg_score (runMain c8Prompts c8Data c8Judge).1) = 4
    have hv : valid_scores (runMain c8Prompts c8Data c8Judge).1 = [(4 : Rat)] := rfl
    rw [avg_score, hv]
    norm_num [round4, pyRoundHalfEven, Int.floor_intCast]

/-- C10: the `average_score` stored in the persisted report is the mean
rounded (half-even) to 4 decimal places, while the console summary line
formats the exact, unrounded mean to 2 decimal places; the rounded and exact
values genuinely differ (witnessed by a run with mean 1/3, stored as
3333/10000). -/
theorem c10_stored_average_rounded_console_exact (prompts : List (Str × Str)) (data : List Item)
    (judge : Nat → Str → Except Str Json) (model : Str) :
    (runReport prompts data judge model).meta.average_score =
      round4 (avg_score (runMain prompts data judge).1) ∧
    summaryLine (runMain prompts data judge).1 =
      "Average Score: ".toList ++ formatFixed2 (avg_score (runMain prompts data judge).1) ++
        " / 5.0".toList ∧
    avg_score (runMain c10Prompts c10Data c10Judge).1 = 1 / 3 ∧
    round4 (avg_score (runMain c10Prompts c10Data c10Judge).1) ≠
      avg_score (runMain c10Prompts c10Data c10Judge).1 := by
  have hv : valid_scores (runMain c10Prompts c10Data c10Judge).1 = [(1 : Rat), 0, 0] := rfl
  have havg : avg_score (runMain c10Prompts c10Data c10Judge).1 = 1 / 3 := by
    rw [avg_score, hv, if_neg (by simp)]
    norm_num
  refine ⟨rfl, rfl, havg, ?_⟩
  rw [havg]
  have hfloor : ⌊(1 / 3 : Rat) * 10000⌋ = 3333 := by
    rw [Int.floor_eq_iff]
    norm_num
  rw [round4, pyRoundHalfEven]
  norm_num [hfloor]

/-- C3: when the judge call (or the parsing of its reply) raises, the verdict
is `status = error`, `score = 0`, `reasoning` a non-empty description of the
failure (`"Evaluation Error: " + str(e)`); and the failure never shortens the
results list — the batch continues and every item still gets its verdict. -/
theorem c3_judge_failure_yields_error_verdict (item : Item) (template : Str) (e : Str)
    (call : Str → Except Str Json) (h : call (renderPrompt item template) = Except.error e)
    (prompts : List (Str × Str)) (data : List Item) (judge : Nat → Str → Except Str Json) :
    (evaluate_single_item item template call).status = statusError ∧
    (evaluate_single_item item template call).score = some (Json.num 0) ∧
    (evaluate_single_item item template call).reasoning = some (Json.str (errPre ++ e)) ∧
    errPre ++ e ≠ [] ∧
    (runMain prompts data judge).1.length = data.length := by
  have hev : evaluate_single_item item template call = errorVerdict item e := by
    rw [evaluate_single_item]
    rw [show call (renderPrompt item template) = Except.error e from h]
  refine ⟨by rw [hev]; rfl, by rw [hev]; rfl, by rw [hev]; rfl, ?_,
    mainLoop_length prompts judge data 0⟩
  intro hc
  exact absurd (List.append_eq_nil.mp hc).1 (by decide)

/-- Witness for C3: a concrete oracle that always raises a network-style
error; the verdict records the failure and an unrelated batch keeps one
verdict per item. -/
theorem c3_judge_failure_yields_error_verdict_witness :
    (evaluate_single_item {} "T".toList (fun _ => Except.error "boom".toList)).status =
        statusError ∧
    (evaluate_single_item {} "T".toList (fun _ => Except.error "boom".toList)).score =
        some (Json.num 0) ∧
    (evaluate_single_item {} "T".toList (fun _ => Except.error "boom".toList)).reasoning =
        some (Json.str (errPre ++ "boom".toList)) ∧
    errPre ++ "boom".toList ≠ [] ∧
    (runMain [("A".toList, "T".toList)] [{ task_type := some "A".toList }]
        (fun _ _ => Except.error "boom".toList)).1.length =
      [({ task_type := some "A".toList } : Item)].length :=
  c3_judge_failure_yields_error_verdict {} "T".toList "boom".toList
    (fun _ => Except.error "boom".toList) rfl [("A".toList, "T".toList)]
    [{ task_type := some "A".toList }] (fun _ _ => Except.error "boom".toList)

/-! ### Lemmas about `pyReplace` (Python `str.replace`) -/

theorem replaceGo_nil (old new : Str) (fuel : Nat) : replaceGo old new fuel [] = [] := by
  cases fuel <;> rfl

theorem replaceGo_congr (old new : Str) (h : old ≠ []) :
    ∀ f1 f2 s, s.length ≤ f1 → s.length ≤ f2 → replaceGo old new f1 s = replaceGo old new f2 s := by
  intro f1
  induction f1 with
  | zero =>
    intro f2 s hs1 _
    have : s = [] := List.length_eq_zero.mp (Nat.le_zero.mp hs1)
    subst this
    rw [replaceGo_nil, replaceGo_nil]
  | succ f1 ih =>
    intro f2 s hs1 hs2
    cases s with
    | nil => rw [replaceGo_nil, replaceGo_nil]
    | cons c cs =>
      have hL : 1 ≤ old.length := by
        cases old with
        | nil => exact absurd rfl h
        | cons o os => simp
      cases f2 with
      | zero => simp at hs2
      | succ f2 =>
        rw [replaceGo, replaceGo]
        by_cases hp : old <+: (c :: cs)
        · rw [if_pos hp, if_pos hp]
          congr 1
          apply ih
          · simp only [List.length_drop, List.length_cons] at *
            omega
          · simp only [List.length_drop, List.length_cons] at *
            omega
        · rw [if_neg hp, if_neg hp]
          congr 1
          apply ih
          · simp only [List.length_cons] at hs1
            omega
          · simp only [List.length_cons] at hs2
            omega

theorem pyReplace_nil_left (old new : Str) (h : old ≠ []) : pyReplace [] old new = [] := by
  cases old with
  | nil => exact absurd rfl h
  | cons o os => rfl

theorem pyReplace_cons (old new : Str) (h : old ≠ []) (c : Char) (cs : Str) :
    pyReplace (c :: cs) old new =
      if old <+: (c :: cs) then new ++ pyReplace ((c :: cs).drop old.length) old new
      else c :: pyReplace cs old new := by
  cases old with
  | nil => exact absurd rfl h
  | cons o os =>
    show replaceGo (o :: os) new (cs.length + 1) (c :: cs) = _
    rw [replaceGo]
    by_cases hp : (o :: os) <+: (c :: cs)
    · rw [if_pos hp, if_pos hp]
      congr 1
      show replaceGo (o :: os) new cs.length ((c :: cs).drop (o :: os).length) =
        pyReplace ((c :: cs).drop (o :: os).length) (o :: os) new
      rw [show pyReplace ((c :: cs).drop (o :: os).length) (o :: os) new =
        replaceGo (o :: os) new ((c :: cs).drop (o :: os).length).length
          ((c :: cs).drop (o :: os).length) from rfl]
      apply replaceGo_congr _ _ h
      · simp only [List.length_drop, List.length_cons]
        omega
      · exact le_rfl
    · rw [if_neg hp, if_neg hp]
      rfl

theorem not_prefix_of_mismatch (old s x : Str) (h : mismatch old s = true) :
    ¬ old <+: (s ++ x) := by
  intro hp
  rw [mismatch, List.any_eq_true] at h
  obtain ⟨k, hk, hcond⟩ := h
  rw [List.mem_range] at hk
  simp only [Bool.and_eq_true, decide_eq_true_eq] at hcond
  obtain ⟨hko, hne⟩ := hcond
  apply hne
  obtain ⟨t, ht⟩ := hp
  have h1 : (s ++ x)[k]? = s[k]? := List.getElem?_append_left hk
  have h2 : (s ++ x)[k]? = old[k]? := by
    rw [← ht]
    exact List.getElem?_append_left hko
  rw [← h1, h2]

theorem mismatch_not_prefix_self (old s : Str) (h : mismatch old s = true) : ¬ old <+: s := by
  have := not_prefix_of_mismatch old s [] h
  simpa using this

theorem mismatch_append (old s x : Str) (h : mismatch old s = true) :
    mismatch old (s ++ x) = true := by
  rw [mismatch, List.any_eq_true] at h ⊢
  obtain ⟨k, hk, hcond⟩ := h
  rw [List.mem_range] at hk
  simp only [Bool.and_eq_true, decide_eq_true_eq] at hcond ⊢
  refine ⟨k, ?_, hcond.1, ?_⟩
  · rw [List.mem_range, List.length_append]
    omega
  · rw [List.getElem?_append_left hk]
    exact hcond.2

theorem cleanChunk_of_suffix (old a a2 : Str) (hsuf : a2 <:+ a) (h : cleanChunk old a) :
    cleanChunk old a2 := fun s hs hne =>
  h s ((List.mem_tails _ _).mpr (((List.mem_tails _ _).mp hs).trans hsuf)) hne

theorem safeChunk_of_suffix (old a a2 : Str) (hsuf : a2 <:+ a) (h : safeChunk old a) :
    safeChunk old a2 := fun s hs hne =>
  h s ((List.mem_tails _ _).mpr (((List.mem_tails _ _).mp hs).trans hsuf)) hne

theorem cleanChunk_safe (old a : Str) (h : cleanChunk old a) : safeChunk old a :=
  fun s hs hne => Or.inr (h s hs hne)

theorem pyReplace_of_cleanChunk (old new a : Str) (ho : old ≠ []) (h : cleanChunk old a) :
    pyReplace a old new = a := by
  induction a with
  | nil => exact pyReplace_nil_left old new ho
  | cons c cs ih =>
    rw [pyReplace_cons old new ho, if_neg, ih (cleanChunk_of_suffix old (c :: cs) cs
      (List.suffix_cons c cs) h)]
    exact mismatch_not_prefix_self old (c :: cs)
      (h (c :: cs) ((List.mem_tails _ _).mpr List.suffix_rfl) (by simp))

theorem pyReplace_append_of_safe (old new : Str) (ho : old ≠ []) :
    ∀ (n : Nat) (a b : Str), a.length ≤ n → safeChunk old a →
      pyReplace (a ++ b) old new = pyReplace a old new ++ pyReplace b old new := by
  intro n
  induction n with
  | zero =>
    intro a b hlen _
    have : a = [] := List.length_eq_zero.mp (Nat.le_zero.mp hlen)
    subst this
    rw [pyReplace_nil_left old new ho]
    rfl
  | succ n ih =>
    intro a b hlen hsafe
    cases a with
    | nil =>
      rw [pyReplace_nil_left old new ho]
      rfl
    | cons c cs =>
      have hL : 1 ≤ old.length := by
        cases old with
        | nil => exact absurd rfl ho
        | cons o os => simp
      rcases hsafe (c :: cs) ((List.mem_tails _ _).mpr List.suffix_rfl) (by simp) with hp | hm
      · have hple : old.length ≤ (c :: cs).length := hp.length_le
        have hp2 : old <+: (c :: cs) ++ b := hp.trans (List.prefix_append _ _)
        rw [show (c :: cs) ++ b = c :: (cs ++ b) from rfl] at hp2 ⊢
        rw [pyReplace_cons old new ho, if_pos hp2, pyReplace_cons old new ho c cs, if_pos hp]
        have hdrop : (c :: (cs ++ b)).drop old.length = ((c :: cs).drop old.length) ++ b := by
          rw [show c :: (cs ++ b) = (c :: cs) ++ b from rfl]
          exact List.drop_append_of_le_length hple
        rw [hdrop, List.append_assoc]
        congr 1
        apply ih
        · simp only [List.length_drop, List.length_cons] at *
          omega
        · exact safeChunk_of_suffix old (c :: cs) _ (List.drop_suffix _ _) hsafe
      · have hnp2 : ¬ old <+: c :: (cs ++ b) := by
          have := not_prefix_of_mismatch old (c :: cs) b hm
          simpa using this
        have hnp : ¬ old <+: (c :: cs) := mismatch_not_prefix_self old _ hm
        rw [show (c :: cs) ++ b = c :: (cs ++ b) from rfl]
        rw [pyReplace_cons old new ho, if_neg hnp2, pyReplace_cons old new ho c cs, if_neg hnp]
        rw [List.cons_append]
        congr 1
        apply ih
        · simp only [List.length_cons] at hlen
          omega
        · exact safeChunk_of_suffix old (c :: cs) cs (List.suffix_cons c cs) hsafe

theorem cleanChunk_append (old b : Str) (hb : cleanChunk old b) :
    ∀ a : Str, cleanChunk old a → cleanChunk old (a ++ b) := by
  intro a
  induction a with
  | nil => intro _; simpa using hb
  | cons c cs ih =>
    intro ha
    intro s hs hne
    rw [List.mem_tails _ _] at hs
    rw [show (c :: cs) ++ b = c :: (cs ++ b) from rfl] at hs
    rcases List.suffix_cons_iff.mp hs with heq | hsuf
    · subst heq
      have hhead : mismatch old (c :: cs) = true :=
        ha (c :: cs) ((List.mem_tails _ _).mpr List.suffix_rfl) (by simp)
      have := mismatch_append old (c :: cs) b hhead
      simpa using this
    · exact ih (cleanChunk_of_suffix old (c :: cs) cs (List.suffix_cons c cs) ha) s
        ((List.mem_tails _ _).mpr hsuf) hne

theorem cleanChunk_of_braceFree (old a : Str) (hbf : braceFree a = true)
    (h0 : old[0]? = some '\x7b') : cleanChunk old a := by
  intro s hs hne
  rw [List.mem_tails _ _] at hs
  cases s with
  | nil => exact absurd rfl hne
  | cons c cs =>
    rw [mismatch, List.any_eq_true]
    refine ⟨0, ?_, ?_⟩
    · rw [List.mem_range]
      simp
    · simp only [Bool.and_eq_true, decide_eq_true_eq]
      constructor
      · cases old with
        | nil => simp at h0
        | cons o os => simp
      · rw [h0]
        simp only [List.getElem?_cons_zero]
        intro hc
        have hceq : c = '\x7b' := by injection hc
        have hcmem : c ∈ a := hs.mem (List.mem_cons_self c cs)
        have := List.all_eq_true.mp hbf c hcmem
        rw [hceq] at this
        simp at this

theorem pyReplace_token_head (old new y : Str) (ho : old ≠ []) :
    pyReplace (old ++ y) old new = new ++ pyReplace y old new := by
  cases old with
  | nil => exact absurd rfl ho
  | cons o os =>
    rw [show (o :: os) ++ y = o :: (os ++ y) from rfl, pyReplace_cons _ _ ho]
    have hp : (o :: os) <+: o :: (os ++ y) := by
      rw [show o :: (os ++ y) = (o :: os) ++ y from rfl]
      exact List.prefix_append _ _
    rw [if_pos hp]
    have hd : (o :: (os ++ y)).drop (o :: os).length = y := by
      rw [show o :: (os ++ y) = (o :: os) ++ y from rfl]
      exact List.drop_left _ _
    rw [hd]

theorem pyReplace_seg (tok new A y : Str) (htok : tok ≠ [])
    (hA : cleanChunk tok A) (hy : cleanChunk tok y) :
    pyReplace (A ++ (tok ++ y)) tok new = A ++ (new ++ y) := by
  rw [pyReplace_append_of_safe tok new htok A.length A (tok ++ y) le_rfl
    (cleanChunk_safe tok A hA)]
  rw [pyReplace_of_cleanChunk tok new A htok hA]
  rw [pyReplace_token_head tok new y htok]
  rw [pyReplace_of_cleanChunk tok new y htok hy]

theorem not_contains_of_braceFree (s tok : Str) (hbf : braceFree s = true)
    (h0 : tok[0]? = some '\x7b') : ¬ containsStr s tok := by
  rintro ⟨x, y, hxy⟩
  have hmem : '\x7b' ∈ tok := by
    cases tok with
    | nil => simp at h0
    | cons t ts =>
      rw [List.getElem?_cons_zero] at h0
      have : t = '\x7b' := by injection h0
      rw [← this]
      exact List.mem_cons_self t ts
  have hs : '\x7b' ∈ s := by
    rw [hxy]
    exact List.mem_append.mpr (Or.inr (List.mem_append.mpr (Or.inl hmem)))
  have := List.all_eq_true.mp hbf _ hs
  simp at this

theorem cleanChunk_of_B (old a : Str) (h : cleanChunkB old a = true) : cleanChunk old a := by
  intro s hs hne
  have := List.all_eq_true.mp h s hs
  simp only [Bool.or_eq_true] at this
  rcases this with h1 | h1
  · exact absurd (List.isEmpty_iff.mp h1) hne
  · exact h1

/-- Counterexample to C7 as stated: an item with question `"Q"` rendered
against the template `"hello"` (which has no placeholder tokens) is processed
successfully, yet the rendered prompt is just `"hello"` and does not contain
the literal question text. -/
theorem c7_counterexample_rendered_prompt :
    (evaluate_single_item { question := some (Json.str "Q".toList) } "hello".toList
        (fun _ => Except.ok (Json.obj [(scoreKey, Json.num 4)]))).status = statusSuccess ∧
    renderPrompt { question := some (Json.str "Q".toList) } "hello".toList = "hello".toList ∧
    ¬ containsStr (renderPrompt { question := some (Json.str "Q".toList) } "hello".toList)
        "Q".toList := by
  refine ⟨rfl, rfl, ?_⟩
  rw [show renderPrompt { question := some (Json.str "Q".toList) } "hello".toList =
    "hello".toList from rfl]
  rintro ⟨x, y, hxy⟩
  have hmem : 'Q' ∈ "hello".toList := by
    rw [hxy]
    exact List.mem_append.mpr (Or.inr (List.mem_append.mpr (Or.inl (by decide))))
  exact absurd hmem (by decide)

/-- C7 amended: the rendered prompt is the template with the three placeholder
tokens substituted sequentially by the items' fields coerced to text, an
absent field substituting the empty string; and — provided the template is
brace-free text surrounding one occurrence of each token in order, and the
coerced field texts are brace-free — the result is the evident concatenation,
contains each literal field text, and retains no placeholder token.  (As
stated the claim fails for templates missing a token or field texts containing
token fragments; see the counterexample.) -/
theorem c7_render_amended (A B C D q r m : Str) (item : Item)
    (hA : braceFree A = true) (hB : braceFree B = true) (hC : braceFree C = true)
    (hD : braceFree D = true) (hq : braceFree q = true) (hr : braceFree r = true)
    (hm : braceFree m = true)
    (hqf : item.question = some (Json.str q) ∨ (item.question = none ∧ q = []))
    (hrf : item.reference_answer = some (Json.str r) ∨ (item.reference_answer = none ∧ r = []))
    (hmf : item.model_answer = some (Json.str m) ∨ (item.model_answer = none ∧ m = [])) :
    renderPrompt item (A ++ qTok ++ B ++ rTok ++ C ++ mTok ++ D) =
      A ++ q ++ B ++ r ++ C ++ m ++ D ∧
    containsStr (renderPrompt item (A ++ qTok ++ B ++ rTok ++ C ++ mTok ++ D)) q ∧
    containsStr (renderPrompt item (A ++ qTok ++ B ++ rTok ++ C ++ mTok ++ D)) r ∧
    containsStr (renderPrompt item (A ++ qTok ++ B ++ rTok ++ C ++ mTok ++ D)) m ∧
    ¬ containsStr (renderPrompt item (A ++ qTok ++ B ++ rTok ++ C ++ mTok ++ D)) qTok ∧
    ¬ containsStr (renderPrompt item (A ++ qTok ++ B ++ rTok ++ C ++ mTok ++ D)) rTok ∧
    ¬ containsStr (renderPrompt item (A ++ qTok ++ B ++ rTok ++ C ++ mTok ++ D)) mTok := by
  have hqne : qTok ≠ [] := by decide
  have hrne : rTok ≠ [] := by decide
  have hmne : mTok ≠ [] := by decide
  have hq2 : pyStr (pyGetStr item.question) = q := by
    rcases hqf with h | ⟨h, h2⟩
    · rw [h]; rfl
    · rw [h, h2]; rfl
  have hr2 : pyStr (pyGetStr item.reference_answer) = r := by
    rcases hrf with h | ⟨h, h2⟩
    · rw [h]; rfl
    · rw [h, h2]; rfl
  have hm2 : pyStr (pyGetStr item.model_answer) = m := by
    rcases hmf with h | ⟨h, h2⟩
    · rw [h]; rfl
    · rw [h, h2]; rfl
  -- brace-free chunks are clean for every token (each token starts with '{')
  have cA1 := cleanChunk_of_braceFree qTok A hA rfl
  have cB1 := cleanChunk_of_braceFree qTok B hB rfl
  have cC1 := cleanChunk_of_braceFree qTok C hC rfl
  have cD1 := cleanChunk_of_braceFree qTok D hD rfl
  have cA2 := cleanChunk_of_braceFree rTok A hA rfl
  have cq2 := cleanChunk_of_braceFree rTok q hq rfl
  have cB2 := cleanChunk_of_braceFree rTok B hB rfl
  have cC2 := cleanChunk_of_braceFree rTok C hC rfl
  have cD2 := cleanChunk_of_braceFree rTok D hD rfl
  have cA3 := cleanChunk_of_braceFree mTok A hA rfl
  have cq3 := cleanChunk_of_braceFree mTok q hq rfl
  have cB3 := cleanChunk_of_braceFree mTok B hB rfl
  have cr3 := cleanChunk_of_braceFree mTok r hr rfl
  have cC3 := cleanChunk_of_braceFree mTok C hC rfl
  -- the other tokens are clean for each token (no cross-occurrence)
  have cRT1 : cleanChunk qTok rTok := cleanChunk_of_B _ _ (by decide)
  have cMT1 : cleanChunk qTok mTok := cleanChunk_of_B _ _ (by decide)
  have cMT2 : cleanChunk rTok mTok := cleanChunk_of_B _ _ (by decide)
  -- step 1: substitute the question
  have hy1 : cleanChunk qTok (B ++ (rTok ++ (C ++ (mTok ++ D)))) :=
    cleanChunk_append qTok _
      (cleanChunk_append qTok _
        (cleanChunk_append qTok _ (cleanChunk_append qTok D cD1 mTok cMT1) C cC1) rTok cRT1)
      B cB1
  -- step 2 chunks
  have hA2 : cleanChunk rTok (A ++ (q ++ B)) :=
    cleanChunk_append rTok _ (cleanChunk_append rTok B cB2 q cq2) A cA2
  have hy2 : cleanChunk rTok (C ++ (mTok ++ D)) :=
    cleanChunk_append rTok _ (cleanChunk_append rTok D cD2 mTok cMT2) C cC2
  -- step 3 chunks
  have hA3 : cleanChunk mTok ((A ++ (q ++ B)) ++ (r ++ C)) :=
    cleanChunk_append mTok _ (cleanChunk_append mTok C cC3 r cr3) _
      (cleanChunk_append mTok _ (cleanChunk_append mTok B cB3 q cq3) A cA3)
  have hD3 := cleanChunk_of_braceFree mTok D hD rfl
  have heq : renderPrompt item (A ++ qTok ++ B ++ rTok ++ C ++ mTok ++ D) =
      A ++ q ++ B ++ r ++ C ++ m ++ D := by
    rw [renderPrompt, hq2, hr2, hm2]
    rw [show A ++ qTok ++ B ++ rTok ++ C ++ mTok ++ D =
        A ++ (qTok ++ (B ++ (rTok ++ (C ++ (mTok ++ D))))) by simp [List.append_assoc]]
    rw [pyReplace_seg qTok q A (B ++ (rTok ++ (C ++ (mTok ++ D)))) hqne cA1 hy1]
    rw [show A ++ (q ++ (B ++ (rTok ++ (C ++ (mTok ++ D))))) =
        (A ++ (q ++ B)) ++ (rTok ++ (C ++ (mTok ++ D))) by simp [List.append_assoc]]
    rw [pyReplace_seg rTok r (A ++ (q ++ B)) (C ++ (mTok ++ D)) hrne hA2 hy2]
    rw [show (A ++ (q ++ B)) ++ (r ++ (C ++ (mTok ++ D))) =
        ((A ++ (q ++ B)) ++ (r ++ C)) ++ (mTok ++ D) by simp [List.append_assoc]]
    rw [pyReplace_seg mTok m ((A ++ (q ++ B)) ++ (r ++ C)) D hmne hA3 hD3]
    simp [List.append_assoc]
  have hbf : braceFree (A ++ q ++ B ++ r ++ C ++ m ++ D) = true := by
    simp only [braceFree] at hA hq hB hr hC hm hD ⊢
    simp only [List.all_append, Bool.and_eq_true]
    exact ⟨⟨⟨⟨⟨⟨hA, hq⟩, hB⟩, hr⟩, hC⟩, hm⟩, hD⟩
  refine ⟨heq, ?_, ?_, ?_, ?_, ?_, ?_⟩
  · rw [heq]
    exact ⟨A, B ++ (r ++ (C ++ (m ++ D))), by simp [List.append_assoc]⟩
  · rw [heq]
    exact ⟨A ++ (q ++ B), C ++ (m ++ D), by simp [List.append_assoc]⟩
  · rw [heq]
    exact ⟨A ++ (q ++ (B ++ (r ++ C))), D, by simp [List.append_assoc]⟩
  · rw [heq]
    exact not_contains_of_braceFree _ qTok hbf rfl
  · rw [heq]
    exact not_contains_of_braceFree _ rTok hbf rfl
  · rw [heq]
    exact not_contains_of_braceFree _ mTok hbf rfl

/-- Witness for C7 (amended): a concrete template with all three tokens and a
concrete item whose model answer is absent (so the empty string is
substituted for it). -/
theorem c7_render_amended_witness :
    renderPrompt
        { question := some (Json.str "What".toList),
          reference_answer := some (Json.str "Yes".toList) }
        ("Task: ".toList ++ qTok ++ "\nRef: ".toList ++ rTok ++ "\nAns: ".toList ++
          mTok ++ " end".toList) =
      "Task: ".toList ++ "What".toList ++ "\nRef: ".toList ++ "Yes".toList ++
        "\nAns: ".toList ++ [] ++ " end".toList ∧
    containsStr (renderPrompt
        { question := some (Json.str "What".toList),
          reference_answer := some (Json.str "Yes".toList) }
        ("Task: ".toList ++ qTok ++ "\nRef: ".toList ++ rTok ++ "\nAns: ".toList ++
          mTok ++ " end".toList)) "What".toList ∧
    containsStr (renderPrompt
        { question := some (Json.str "What".toList),
          reference_answer := some (Json.str "Yes".toList) }
        ("Task: ".toList ++ qTok ++ "\nRef: ".toList ++ rTok ++ "\nAns: ".toList ++
          mTok ++ " end".toList)) "Yes".toList ∧
    containsStr (renderPrompt
        { question := some (Json.str "What".toList),
          reference_answer := some (Json.str "Yes".toList) }
        ("Task: ".toList ++ qTok ++ "\nRef: ".toList ++ rTok ++ "\nAns: ".toList ++
          mTok ++ " end".toList)) [] ∧
    ¬ containsStr (renderPrompt
        { question := some (Json.str "What".toList),
          reference_answer := some (Json.str "Yes".toList) }
        ("Task: ".toList ++ qTok ++ "\nRef: ".toList ++ rTok ++ "\nAns: ".toList ++
          mTok ++ " end".toList)) qTok ∧
    ¬ containsStr (renderPrompt
        { question := some (Json.str "What".toList),
          reference_answer := some (Json.str "Yes".toList) }
        ("Task: ".toList ++ qTok ++ "\nRef: ".toList ++ rTok ++ "\nAns: ".toList ++
          mTok ++ " end".toList)) rTok ∧
    ¬ containsStr (renderPrompt
        { question := some (Json.str "What".toList),
          reference_answer := some (Json.str "Yes".toList) }
        ("Task: ".toList ++ qTok ++ "\nRef: ".toList ++ rTok ++ "\nAns: ".toList ++
          mTok ++ " end".toList)) mTok :=
  c7_render_amended "Task: ".toList "\nRef: ".toList "\nAns: ".toList " end".toList
    "What".toList "Yes".toList []
    { question := some (Json.str "What".toList),
      reference_answer := some (Json.str "Yes".toList) }
    (by decide) (by decide) (by decide) (by decide) (by decide) (by decide) (by decide)
    (Or.inl rfl) (Or.inl rfl) (Or.inr ⟨rfl, rfl⟩)
